import Mathlib

/-!
Verification of the fingerprint-matching pipeline in
`deprecated/python_lesson1/main.py` (Python 2).

The Python source is shallowly embedded: pure fragments become Lean
functions over `String`/`List`; calls to external executables
(`mindtct`, `bozorth3`) are parameterised by an oracle describing the
subprocess outcome (exit status / captured stdout); exceptions become
`Except`; the `try/finally` scratch-directory cleanup is recorded by a
Boolean "tempdir removed" flag paired with each outcome.  Python string
primitives (`str.strip`, `str.split`, `int()`, `os.path.splitext`,
`os.path.join`) are re-implemented following CPython semantics so that
everything evaluates inside Lean.
-/

namespace PyLesson1

/-! ### CPython string primitives -/

/-- Whitespace characters recognised by Python `str.strip()` / `str.split()`. -/
def isPySpace (c : Char) : Bool :=
  c = ' ' || c = '\t' || c = '\n' || c = '\x0d' || c = '\x0b' || c = '\x0c'

/-- Python `str.strip()`: drop leading and trailing whitespace. -/
def pyStrip (s : String) : String :=
  ⟨((s.toList.dropWhile isPySpace).reverse.dropWhile isPySpace).reverse⟩

/-- Worker for `pySplitWs`: split on runs of whitespace, discarding empties
(CPython `str.split()` with no argument). -/
def pySplitWsAux : List Char → List Char → List String
  | [], acc => if acc.isEmpty then [] else [⟨acc.reverse⟩]
  | c :: rest, acc =>
      if isPySpace c then
        if acc.isEmpty then pySplitWsAux rest []
        else ⟨acc.reverse⟩ :: pySplitWsAux rest []
      else pySplitWsAux rest (c :: acc)

/-- Python `str.split()` (no separator argument). -/
def pySplitWs (s : String) : List String :=
  pySplitWsAux s.toList []

/-- Worker for `pySplitNl`. -/
def splitLinesAux : List Char → List Char → List String
  | [], acc => [⟨acc.reverse⟩]
  | c :: rest, acc =>
      if c = '\n' then ⟨acc.reverse⟩ :: splitLinesAux rest []
      else splitLinesAux rest (c :: acc)

/-- Python `str.split('\n')`: split at every newline, keeping empty pieces
(so the empty string yields `[""]`, exactly as in CPython). -/
def pySplitNl (s : String) : List String :=
  splitLinesAux s.toList []

/-- Decimal digit test. -/
def isPyDigit (c : Char) : Bool := '0' ≤ c && c ≤ '9'

/-- Parse a nonempty all-digit character list as a natural number. -/
def pyParseNat (cs : List Char) : Option Nat :=
  if cs.isEmpty then none
  else if cs.all isPyDigit then
    some (cs.foldl (fun a c => 10 * a + (c.toNat - 48)) 0)
  else none

/-- Python `int(s)` on a string: surrounding whitespace is tolerated, an
optional sign is followed by one or more decimal digits; anything else
raises `ValueError`, modelled as `none`. -/
def pyInt (s : String) : Option Int :=
  match (pyStrip s).toList with
  | '-' :: rest => (pyParseNat rest).map (fun n => -(n : Int))
  | '+' :: rest => (pyParseNat rest).map (fun n => (n : Int))
  | cs => (pyParseNat cs).map (fun n => (n : Int))

/-- Worker for `pyRFind`: index of the last occurrence of `c`. -/
def rfindAux (c : Char) : List Char → Nat → Option Nat → Option Nat
  | [], _, best => best
  | x :: rest, i, best => rfindAux c rest (i + 1) (if x = c then some i else best)

/-- Python `str.rfind(c)` restricted to single characters, as an `Option`. -/
def pyRFind (cs : List Char) (c : Char) : Option Nat :=
  rfindAux c cs 0 none

/-- CPython `posixpath.splitext`: split off the extension at the last dot,
unless that dot only leads the basename (leading dots are skipped, so
`".png"` has no extension while `"a.png"` does). -/
def splitext (p : String) : String × String :=
  let cs := p.toList
  let sepIndex : Int := match pyRFind cs '/' with | some i => (i : Int) | none => -1
  let dotIndex : Int := match pyRFind cs '.' with | some i => (i : Int) | none => -1
  if sepIndex < dotIndex then
    let filenameStart : Nat := (sepIndex + 1).toNat
    let between := (cs.drop filenameStart).take (dotIndex.toNat - filenameStart)
    if between.any (fun c => c ≠ '.') then
      (⟨cs.take dotIndex.toNat⟩, ⟨cs.drop dotIndex.toNat⟩)
    else (p, "")
  else (p, "")

/-- CPython `posixpath.join` for two components. -/
def pyJoin (a b : String) : String :=
  if b.toList.head? = some '/' then b
  else if a.toList = [] ∨ a.toList.getLast? = some '/' then a ++ b
  else a ++ "/" ++ b

/-! ### Data model (the `attr.s` classes of the source) -/

/-- `Checksum(value, kind)`. -/
structure Checksum where
  value : String
  kind : String
deriving Repr, DecidableEq

/-- The token list of `'md5 sha1 sha224 sha256 sha384 sha512'.split()`. -/
def checksumKinds : List String :=
  ["md5", "sha1", "sha224", "sha256", "sha384", "sha512"]

/-- The validator lambda attached to `Checksum.kind`:
`lambda o, a, v: v in 'md5 sha1 sha224 sha256 sha384 sha512'.split()`. -/
def checksumKindValidator (kind : String) : Bool :=
  checksumKinds.contains kind

/-- Constructing a `Checksum` through `attrs`.  `attrs` calls the validator
and IGNORES its return value: a validator signals failure only by raising
an exception.  The source's validator returns a `Bool` and never raises,
so construction succeeds for every `kind`. -/
def Checksum.make (value kind : String) : Except String Checksum :=
  let _validatorResult := checksumKindValidator kind
  Except.ok { value := value, kind := kind }

/-- `Path(checksum, filepath)`. -/
structure Path where
  checksum : Checksum
  filepath : String
deriving Repr, DecidableEq

/-- `image(id, path)`. -/
structure image where
  id : String
  path : Path
deriving Repr, DecidableEq

/-- `mindtct(image, xyt)` — a minutiae template; the `image` field holds the
originating image's id string (see `mindtct_from_image`). -/
structure mindtct where
  image : String
  xyt : String
deriving Repr, DecidableEq, Inhabited

/-- `bozorth3(probe, gallery, score)` — one match result. -/
structure bozorth3 where
  probe : String
  gallery : String
  score : Int
deriving Repr, DecidableEq

/-! ### Manifest reader and image locator -/

/-- The loop body of `locate_paths` on one line's whitespace-split tokens:
exactly two tokens (`md5sum`, `path`) yield a record with kind `md5` and
the path joined to the dataset root; any other token count is skipped
(`continue`). -/
def parseTokens (pfx : String) : List String → Option Path
  | [md5sum, path] =>
      some { checksum := { value := md5sum, kind := "md5" },
             filepath := pyJoin pfx path }
  | _ => none

/-- The per-line parse of `locate_paths`: strip, split on whitespace, keep
two-token lines. -/
def parseManifestLine (pfx line : String) : Option Path :=
  parseTokens pfx (pySplitWs (pyStrip line))

/-- `locate_paths`: one `Path` per manifest line that has exactly two
whitespace-separated tokens after stripping; all other lines are skipped.
The file is modelled by its list of lines. -/
def locate_paths (lines : List String) (pfx : String) : List Path :=
  lines.filterMap (parseManifestLine pfx)

/-- The accepted-extension list `['.png']` of `locate_images`. -/
def pyImageExts : List String := [".png"]

/-- The filter of `locate_images`: extension of the filepath is in `['.png']`. -/
def locate_images_pred (path : Path) : Bool :=
  pyImageExts.contains (splitext path.filepath).2

/-- `locate_images`: keep records with an accepted extension, emit an
`image` whose id is the record's checksum value. -/
def locate_images (paths : List Path) : List image :=
  (paths.filter locate_images_pred).map
    (fun path => { id := path.checksum.value, path := path })

/-! ### External executables, scratch directories, exceptions

Subprocess calls are parameterised by oracles.  For `check_output`
(`bozorth3` calls) the oracle is an `Option String`: `none` models a
non-zero exit status (Python raises `CalledProcessError`), `some out`
models a zero exit with captured stdout `out`.  `mindtct` uses
`check_call` plus a separate read of the `.xyt` output file, so its
oracle carries an exit code and an optional file content.  The writes of
template payloads into the scratch directory are modelled as succeeding
(they sit before the `try:` block in the source and are not an exit path
named by the specification).  Each function returns its `Except` outcome
paired with a Boolean recording whether the scratch directory was removed;
the `finally: shutil.rmtree(tempdir)` makes it `true` on every path. -/

/-- Python exceptions reached by the embedded fragments. -/
inductive PyErr where
  | calledProcessError (code : Int)
  | ioError
  | valueError (msg : String)
  | nameError (name : String)
deriving Repr, DecidableEq

/-- The `ValueError` of `int()` on a non-numeric string. -/
def intParseError : PyErr := PyErr.valueError "invalid literal for int() with base 10"

/-- Oracle for one `mindtct` invocation. -/
structure ExtractorRun where
  exitCode : Int
  xytRead : Option String
deriving Repr, DecidableEq

/-- `mindtct_from_image`: run the extractor inside a fresh scratch
directory, read `result.xyt`, and remove the directory in `finally`. -/
def mindtct_from_image (img : image) (run : ExtractorRun) :
    Except PyErr mindtct × Bool :=
  let body : Except PyErr mindtct :=
    if run.exitCode ≠ 0 then Except.error (PyErr.calledProcessError run.exitCode)
    else
      match run.xytRead with
      | none => Except.error PyErr.ioError
      | some xyt => Except.ok { image := img.id, xyt := xyt }
  (body, true)

/-- `bozorth3_from_group` (pairwise): write both templates to scratch
files, run `bozorth3 probeFile galleryFile`, parse one integer. -/
def bozorth3_from_group (probe gallery : mindtct) (outp : Option String) :
    Except PyErr bozorth3 × Bool :=
  let body : Except PyErr bozorth3 :=
    match outp with
    | none => Except.error (PyErr.calledProcessError 1)
    | some out =>
        match pyInt (pyStrip out) with
        | none => Except.error intParseError
        | some score =>
            Except.ok { probe := probe.image, gallery := gallery.image, score := score }
  (body, true)

/-- `map(int, result.split('\n'))` applied to the stripped stdout of a
one-to-many `bozorth3` call; Python 2's `map` is eager, so the first bad
token raises, modelled by `none`. -/
def pyParseScores (out : String) : Option (List Int) :=
  (pySplitNl (pyStrip out)).mapM pyInt

/-- `bozorth3_from_one_to_many`: write the probe and every gallery template
to scratch files, run `bozorth3 -p probeFile galleryFiles...`, parse the
stdout as newline-separated integers and zip them with the gallery. -/
def bozorth3_from_one_to_many (probe : mindtct) (galleryset : List mindtct)
    (outp : Option String) : Except PyErr (List bozorth3) × Bool :=
  let body : Except PyErr (List bozorth3) :=
    match outp with
    | none => Except.error (PyErr.calledProcessError 1)
    | some out =>
        match pyParseScores out with
        | none => Except.error intParseError
        | some scores =>
            Except.ok ((scores.zip galleryset).map
              (fun sg => { probe := probe.image, gallery := sg.2.image, score := sg.1 }))
  (body, true)

/-- A Python value that may sit in the `gallery` field of a
`bozorth3_input`: a single template, a list of templates, or anything
else (tagged by the name of its Python type). -/
inductive PyGallery where
  | template (t : mindtct)
  | list (ts : List mindtct)
  | other (typeName : String)
deriving Repr, DecidableEq

/-- `type(v)` rendered as the type's name. -/
def pyTypeName : PyGallery → String
  | PyGallery.template _ => "mindtct"
  | PyGallery.list _ => "list"
  | PyGallery.other typeName => typeName

/-- `bozorth3_input(probe, gallery)`. -/
structure bozorth3_input where
  probe : mindtct
  gallery : PyGallery
deriving Repr, DecidableEq

/-- The two shapes of value `bozorth3_input.run` can return. -/
inductive MatchOut where
  | one (r : bozorth3)
  | many (rs : List bozorth3)
deriving Repr, DecidableEq

/-- `bozorth3_input.run`.  The fall-through branch formats
`type(gallery)` — the module-level global name `gallery`, NOT
`self.gallery`: if no global `gallery` is bound the `raise` line itself
fails with `NameError`; otherwise the `ValueError` message names the
global's type.  `globalGallery` models the binding of that global name,
`outp` the scorer oracle. -/
def bozorth3_input.run (self : bozorth3_input) (globalGallery : Option PyGallery)
    (outp : Option String) : Except PyErr MatchOut :=
  match self.gallery with
  | PyGallery.template g => (bozorth3_from_group self.probe g outp).1.map MatchOut.one
  | PyGallery.list gs => (bozorth3_from_one_to_many self.probe gs outp).1.map MatchOut.many
  | PyGallery.other _ =>
      match globalGallery with
      | none => Except.error (PyErr.nameError "gallery")
      | some g =>
          Except.error (PyErr.valueError ("Unhandled type for gallery: " ++ pyTypeName g))

/-- `run_bozorth3(input) = input.run()`. -/
def run_bozorth3 (inp : bozorth3_input) (globalGallery : Option PyGallery)
    (outp : Option String) : Except PyErr MatchOut :=
  inp.run globalGallery outp

/-- The matching stage of `__main__`: one `bozorth3_input` per probe, each
carrying the whole gallery list, mapped through the pool (`pool.map`
re-raises the first worker exception, modelled by `mapM`).  `oracle`
gives each probe's scorer stdout. -/
def pipelineMatchResults (probes gallery : List mindtct)
    (oracle : mindtct → Option String) : Except PyErr (List (List bozorth3)) :=
  probes.mapM (fun p => (bozorth3_from_one_to_many p gallery (oracle p)).1)

/-! ### Result store (sqlite3) -/

/-- One row of the `bozorth3` table. -/
abbrev Row := String × String × Int

/-- `sql_insert_values`: the `(probe, gallery, score)` tuple bound by the
prepared insert statement. -/
def bozorth3.sql_insert_values (b : bozorth3) : Row :=
  (b.probe, b.gallery, b.score)

/-- The sqlite connection: rows made durable by `commit`, plus rows
inserted in the current (implicit) transaction. -/
structure DB where
  committed : List Row
  pending : List Row
deriving Repr, DecidableEq

/-- `cursor.executemany(INSERT ...)`: queue rows in the open transaction. -/
def DB.executemany (db : DB) (rows : List Row) : DB :=
  { db with pending := db.pending ++ rows }

/-- `conn.commit()`: make the pending rows durable. -/
def DB.commit (db : DB) : DB :=
  { committed := db.committed ++ db.pending, pending := [] }

/-- A fresh `scores.db`. -/
def dbInit : DB := { committed := [], pending := [] }

/-- The body of the persistence loop for one result group: `executemany`
then `commit`. -/
def persistGroup (db : DB) (group : List bozorth3) : DB :=
  (db.executemany (group.map bozorth3.sql_insert_values)).commit

/-- The persistence loop of `__main__` over the one-to-many result groups. -/
def persistGroups (db : DB) (groups : List (List bozorth3)) : DB :=
  groups.foldl persistGroup db

/-! ### Sampler (`random.sample`)

CPython 2.7 `random.sample(population, k)` first checks `0 <= k <= n`
(raising `ValueError` otherwise) and then, for a list population, selects
`k` elements without replacement; for list inputs of modest size it runs
the pool algorithm: copy the population into `pool`, and `k` times pick
`j = int(random() * (n-i))` in the active region `[0, n-i)`, emit
`pool[j]`, and move `pool[n-i-1]` into slot `j`, shrinking the region.
The stream of picked indices `j` is the randomness oracle `rands`; a
faithful draw satisfies `validRands` (each pick lies in the active
region).  The fractions of `__main__` are modelled as exact rationals, so
`int(perc * len(...))` for a fraction in `[0,1]` is the floor. -/

/-- One step of the pool algorithm: `pool[j] = pool[n-i-1]` (move the last
active element into the vacated slot) and shrink the active region. -/
def swapRemove {α : Type} [Inhabited α] (pool : List α) (j : Nat) : List α :=
  (pool.set j (pool.getD (pool.length - 1) default)).take (pool.length - 1)

/-- The pool-swap selection loop of `random.sample`, driven by the list of
picked indices.  The active region of the CPython array `pool[0 .. n-i)`
is the functional list `pool`. -/
def samplePool {α : Type} [Inhabited α] : List α → List Nat → List α
  | _, [] => []
  | pool, j :: rest => pool.getD j default :: samplePool (swapRemove pool j) rest

/-- Each picked index lies in the shrinking active region `[0, n-i)`. -/
def validRands : Nat → List Nat → Bool
  | _, [] => true
  | n, j :: rest => decide (j < n) && validRands (n - 1) rest

/-- `random.sample(population, k)` with index oracle `rands`. -/
def pySample {α : Type} [Inhabited α] (population : List α) (k : Nat)
    (rands : List Nat) : Except PyErr (List α) :=
  if k ≤ population.length then Except.ok (samplePool population (rands.take k))
  else Except.error (PyErr.valueError "sample larger than population")

/-! #### IEEE-754 binary64 arithmetic of the sample-size computation

`__main__` computes `int(perc_probe * len(mindtcts))` where
`perc_probe = float(sys.argv[3])` is an IEEE-754 binary64 double.  The
model below performs that computation exactly, in integer arithmetic: a
positive double is a pair `m * 2^e`; parsing a decimal literal is
correct rounding (round to nearest, ties to even) of the exact fraction;
multiplication rounds the exact product once; `int()` truncates.  The
binary-exponent search covers `[-60, 60]`, ample for command-line
fractions down to `2^-60` and populations up to `2^60` (all quantities
of this program); sub-normals and overflow are out of that range and out
of the program's scope. -/

/-- Is `2^k ≤ a / b`?  (`a`, `b` positive; integer comparison only). -/
def pow2LE (k : ℤ) (a b : ℕ) : Bool :=
  if 0 ≤ k then b * 2 ^ k.toNat ≤ a else b ≤ a * 2 ^ (-k).toNat

/-- The binary exponent of the positive fraction `a / b`: the `k` with
`2^k ≤ a/b < 2^(k+1)`, searched over `[-60, 60]`. -/
def binExp (a b : ℕ) : ℤ :=
  ((List.range 121).map (fun i => (i : ℤ) - 60)).foldl
    (fun acc k => if pow2LE k a b && !pow2LE (k + 1) a b then k else acc) 0

/-- Round the positive fraction `num / den` to the nearest integer, ties
to even. -/
def roundHalfEvenFrac (num den : ℕ) : ℕ :=
  let q := num / den
  let r := num % den
  if 2 * r < den then q
  else if den < 2 * r then q + 1
  else if q % 2 = 0 then q else q + 1

/-- A nonnegative binary64 double in the normal range: the value
`m * 2^e`, with `m` the 53-bit significand (`2^52 ≤ m ≤ 2^53` after
rounding; `m = 0` for zero). -/
structure PyFloat where
  m : ℕ
  e : ℤ
deriving Repr, DecidableEq

/-- Correct rounding of the nonnegative fraction `a / b` to binary64:
scale the significand into `[2^52, 2^53)`, round half to even.  This is
both CPython `float(string)` on a decimal literal (correctly rounded per
the runtime) and the exact-int-to-double conversion (exact below `2^53`). -/
def roundToDouble (a b : ℕ) : PyFloat :=
  let k := binExp a b
  let num := a * 2 ^ (52 - k).toNat
  let den := b * 2 ^ (k - 52).toNat
  { m := roundHalfEvenFrac num den, e := k - 52 }

/-- IEEE binary64 multiplication: the exact product of the two values,
correctly rounded once. -/
def mulDouble (x y : PyFloat) : PyFloat :=
  let e := x.e + y.e
  if 0 ≤ e then roundToDouble (x.m * y.m * 2 ^ e.toNat) 1
  else roundToDouble (x.m * y.m) (2 ^ (-e).toNat)

/-- Python `int()` on a nonnegative double: truncation (the floor). -/
def truncDouble (x : PyFloat) : ℕ :=
  if 0 ≤ x.e then x.m * 2 ^ x.e.toNat else x.m / 2 ^ (-x.e).toNat

/-- `int(perc * len(mindtcts))` as the program computes it: the
command-line fraction — the decimal literal `a / b` — parsed to the
nearest double, the population size converted to a double, the two
multiplied in binary64, the product truncated. -/
def sampleSizeFloat (a b n : ℕ) : ℕ :=
  truncDouble (mulDouble (roundToDouble a b) (roundToDouble n 1))

/-- The sampling stage of `__main__`: draw the probe set and, with an
independent oracle, the gallery set; the two fractions are given as the
decimal literals `aP / bP` and `aG / bG` of `argv`. -/
def pipelineSamples (mindtcts : List mindtct) (aP bP aG bG : ℕ)
    (randsProbe randsGallery : List Nat) :
    Except PyErr (List mindtct × List mindtct) :=
  match pySample mindtcts (sampleSizeFloat aP bP mindtcts.length) randsProbe with
  | Except.error e => Except.error e
  | Except.ok probes =>
      match pySample mindtcts (sampleSizeFloat aG bG mindtcts.length) randsGallery with
      | Except.error e => Except.error e
      | Except.ok gallery => Except.ok (probes, gallery)

/-! ### Concrete fixtures used by several theorems -/

/-- A sample image record. -/
def imgEx : image :=
  { id := "c0",
    path := { checksum := { value := "c0", kind := "md5" }, filepath := "r/a.png" } }

/-- A probe template. -/
def tP : mindtct := { image := "p0", xyt := "PD" }

/-- A gallery template. -/
def tG : mindtct := { image := "g0", xyt := "GD" }

/-- A second gallery template. -/
def tG1 : mindtct := { image := "g1", xyt := "GD1" }

/-- A third gallery template. -/
def tG2 : mindtct := { image := "g2", xyt := "GD2" }

/-- First result group (3 results of probe `p1`). -/
def grpA : List bozorth3 :=
  [{ probe := "p1", gallery := "g1", score := 5 },
   { probe := "p1", gallery := "g2", score := 12 },
   { probe := "p1", gallery := "g3", score := 0 }]

/-- Second result group (2 results of probe `p2`). -/
def grpB : List bozorth3 :=
  [{ probe := "p2", gallery := "g1", score := 7 },
   { probe := "p2", gallery := "g2", score := 3 }]

/-! ### Claim theorems -/

/-- Claim C3 (code evaluated at the failing input): constructing a
`Checksum` whose kind is outside the enumerated set SUCCEEDS, because the
`attrs` validator lambda returns a `Bool` instead of raising, and `attrs`
ignores a validator's return value.  The validator itself does classify
`"crc32"` as invalid, so the enumerated-set check is dead code. -/
theorem checksum_bad_kind_construction_succeeds :
    Checksum.make "d41d8cd98f00b204e9800998ecf8427e" "crc32"
      = Except.ok { value := "d41d8cd98f00b204e9800998ecf8427e", kind := "crc32" } ∧
    checksumKindValidator "crc32" = false ∧
    checksumKindValidator "md5" = true := by
  refine ⟨rfl, by decide, by decide⟩

/-- Claim C2 (code evaluated at the failing input): for a request whose
gallery is neither a template nor a list, the `raise` line formats
`type(gallery)` — the module-level global, not `self.gallery`.  With no
global `gallery` bound the run fails with `NameError`; with the global
bound (as in `__main__`, where it is the sampled gallery list) the
`ValueError` message names the global's type `list`, not the offending
value's type `int`. -/
theorem run_unhandled_gallery_wrong_type_reported :
    bozorth3_input.run { probe := tP, gallery := PyGallery.other "int" } none (some "7")
      = Except.error (PyErr.nameError "gallery") ∧
    bozorth3_input.run { probe := tP, gallery := PyGallery.other "int" }
        (some (PyGallery.list [tG])) (some "7")
      = Except.error (PyErr.valueError "Unhandled type for gallery: list") := by
  exact ⟨rfl, rfl⟩

/-- Claim C9: every extractor and matcher invocation removes its scratch
directory on every exit path enumerated by the claim — success, non-zero
executable exit, output-read failure, and score-parse failure — because
the removal sits in a `finally` block.  The universally quantified
conjuncts cover all oracles; the closed conjuncts exhibit one invocation
on each exit path, error and cleanup flag both evaluated. -/
theorem scratch_dir_removed_on_every_exit_path :
    (∀ (img : image) (r : ExtractorRun), (mindtct_from_image img r).2 = true) ∧
    (∀ (probe gallery : mindtct) (outp : Option String),
      (bozorth3_from_group probe gallery outp).2 = true) ∧
    (∀ (probe : mindtct) (gs : List mindtct) (outp : Option String),
      (bozorth3_from_one_to_many probe gs outp).2 = true) ∧
    mindtct_from_image imgEx { exitCode := 0, xytRead := some "XY" }
      = (Except.ok { image := "c0", xyt := "XY" }, true) ∧
    mindtct_from_image imgEx { exitCode := 255, xytRead := none }
      = (Except.error (PyErr.calledProcessError 255), true) ∧
    mindtct_from_image imgEx { exitCode := 0, xytRead := none }
      = (Except.error PyErr.ioError, true) ∧
    bozorth3_from_group tP tG none = (Except.error (PyErr.calledProcessError 1), true) ∧
    bozorth3_from_group tP tG (some "garbage") = (Except.error intParseError, true) ∧
    bozorth3_from_one_to_many tP [tG] (some "oops") = (Except.error intParseError, true) ∧
    bozorth3_from_one_to_many tP [tG] (some "42")
      = (Except.ok [{ probe := "p0", gallery := "g0", score := 42 }], true) := by
  exact ⟨fun _ _ => rfl, fun _ _ _ => rfl, fun _ _ _ => rfl,
    rfl, rfl, rfl, rfl, rfl, rfl, rfl⟩

/-- Each group's rows are committed before the next group is processed:
processing any prefix of the groups leaves exactly that prefix's rows
durable. -/
theorem persistGroups_committed (c : List Row) (groups : List (List bozorth3)) :
    persistGroups { committed := c, pending := [] } groups
      = { committed := c ++ (groups.map (fun g => g.map bozorth3.sql_insert_values)).flatten,
          pending := [] } := by
  induction groups generalizing c with
  | nil => simp [persistGroups]
  | cons g gs ih =>
      show persistGroups
          { committed := c ++ g.map bozorth3.sql_insert_values, pending := [] } gs = _
      rw [ih]
      simp [List.append_assoc]

/-- Claim C8: the persistence loop inserts each one-to-many result group
as one transaction and commits it before the next group; after processing
any prefix of the groups (a crash between commits) exactly that prefix's
rows are durable and nothing is pending, and the 3-element and 2-element
sample groups leave exactly 5 rows whose values match the results. -/
theorem result_store_per_group_commit :
    (∀ (groups : List (List bozorth3)) (i : Nat),
      persistGroups dbInit (groups.take i)
        = { committed :=
              ((groups.take i).map (fun g => g.map bozorth3.sql_insert_values)).flatten,
            pending := [] }) ∧
    (persistGroups dbInit [grpA, grpB]).committed
      = grpA.map bozorth3.sql_insert_values ++ grpB.map bozorth3.sql_insert_values ∧
    (persistGroups dbInit [grpA, grpB]).committed.length = 5 ∧
    (persistGroups dbInit ([grpA, grpB].take 1)).committed
      = grpA.map bozorth3.sql_insert_values := by
  refine ⟨fun groups i => ?_, by decide, by decide, by decide⟩
  simpa using persistGroups_committed [] (groups.take i)

/-- Claim C4 counterexample: with a nonempty probe set and an empty
gallery set, the pipeline still invokes the scorer once per probe with
zero gallery files; when such an invocation succeeds with empty stdout,
`map(int, result.split('\n'))` runs `int('')` on the single empty token
and the run fails with `ValueError` instead of completing. -/
theorem empty_gallery_empty_output_fails :
    pipelineMatchResults [tP] [] (fun _ => some "") = Except.error intParseError := by
  rfl

/-- With an empty gallery every probe's scorer invocation that exits
successfully with parseable stdout yields the empty result group. -/
theorem pipelineMatch_empty_gallery (oracle : mindtct → Option String)
    (probes : List mindtct)
    (hok : ∀ p ∈ probes, ∃ out scores, oracle p = some out ∧
       pyParseScores out = some scores) :
    pipelineMatchResults probes [] oracle
      = Except.ok (probes.map (fun _ => [])) := by
  induction probes with
  | nil => rfl
  | cons p ps ih =>
      obtain ⟨out, scores, ho, hp⟩ := hok p (List.mem_cons_self p ps)
      have hbody : (bozorth3_from_one_to_many p [] (oracle p)).1 = Except.ok [] := by
        rw [ho]
        simp [bozorth3_from_one_to_many, hp]
      have hps := ih (fun q hq => hok q (List.mem_cons_of_mem p hq))
      simp only [pipelineMatchResults] at hps ⊢
      rw [List.mapM_cons, hbody, hps]
      rfl

/-- Claim C4 amended: an empty probe set always yields zero match results
and no error; an empty gallery set (with probes present) still issues one
scorer invocation per probe and yields zero match results only provided
each invocation exits successfully with stdout that parses as
newline-separated integers. -/
theorem empty_probe_or_gallery_zero_results
    (gallery : List mindtct) (oracle : mindtct → Option String)
    (probes : List mindtct)
    (hok : ∀ p ∈ probes, ∃ out scores, oracle p = some out ∧
       pyParseScores out = some scores) :
    pipelineMatchResults [] gallery oracle = Except.ok [] ∧
    ∃ groups, pipelineMatchResults probes [] oracle = Except.ok groups ∧
      groups.flatten = [] := by
  refine ⟨rfl, probes.map (fun _ => []), pipelineMatch_empty_gallery oracle probes hok, ?_⟩
  simp

/-- Witness for the amended C4 theorem at a concrete run. -/
theorem empty_probe_or_gallery_zero_results_witness :
    pipelineMatchResults [] [tG] (fun _ => some "3") = Except.ok [] ∧
    ∃ groups, pipelineMatchResults [tP] [] (fun _ => some "3") = Except.ok groups ∧
      groups.flatten = [] :=
  empty_probe_or_gallery_zero_results [tG] (fun _ => some "3") [tP]
    (fun p _ => ⟨"3", [3], rfl, by decide⟩)

/-- Claim C1: when the scorer stdout parses as exactly `N` newline-separated
integers for an `N`-element gallery, the one-to-many matcher returns `N`
results; result `i` carries the probe's image id, gallery `i`'s image id,
and score `i` (positional alignment). -/
theorem one_to_many_positional (probe : mindtct) (gs : List mindtct) (out : String)
    (scores : List Int) (hparse : pyParseScores out = some scores)
    (hlen : scores.length = gs.length) :
    ∃ rs, (bozorth3_from_one_to_many probe gs (some out)).1 = Except.ok rs ∧
      rs.length = gs.length ∧
      ∀ (i : Nat) (h1 : i < rs.length) (h2 : i < gs.length) (h3 : i < scores.length),
        rs.get ⟨i, h1⟩
          = { probe := probe.image,
              gallery := (gs.get ⟨i, h2⟩).image,
              score := scores.get ⟨i, h3⟩ } := by
  refine ⟨(scores.zip gs).map
      (fun sg => { probe := probe.image, gallery := sg.2.image, score := sg.1 }), ?_, ?_, ?_⟩
  · simp [bozorth3_from_one_to_many, hparse]
  · simp [List.length_zip, hlen]
  · intro i h1 h2 h3
    simp only [List.get_eq_getElem, List.getElem_map]
    rw [List.getElem_zip]

/-- Witness for C1 at the spec's concrete example: gallery `[g0, g1, g2]`
and scorer output `"5\n12\n0"` give scores 5, 12, 0 in gallery order. -/
theorem one_to_many_positional_witness :
    ∃ rs, (bozorth3_from_one_to_many tP [tG, tG1, tG2] (some "5\n12\n0")).1
        = Except.ok rs ∧
      rs.length = [tG, tG1, tG2].length ∧
      ∀ (i : Nat) (h1 : i < rs.length) (h2 : i < [tG, tG1, tG2].length)
        (h3 : i < [(5 : Int), 12, 0].length),
        rs.get ⟨i, h1⟩
          = { probe := tP.image,
              gallery := ([tG, tG1, tG2].get ⟨i, h2⟩).image,
              score := [(5 : Int), 12, 0].get ⟨i, h3⟩ } :=
  one_to_many_positional tP [tG, tG1, tG2] "5\n12\n0" [5, 12, 0] (by decide) (by decide)

/-- The extension filter accepts a record iff its `splitext` extension is
a member of the accepted-extension list. -/
theorem locate_images_pred_iff (r : Path) :
    locate_images_pred r = true ↔ (splitext r.filepath).2 ∈ pyImageExts := by
  exact List.elem_iff

/-- Claim C6: the image locator's output is the order-preserving
subsequence of records with an accepted extension (default `['.png']`),
each mapped to an image whose id is the record's checksum value; records
with unaccepted extensions never appear, accepted ones always do. -/
theorem locate_images_characterization (paths : List Path) :
    ((locate_images paths).map image.path).Sublist paths ∧
    (∀ img ∈ locate_images paths,
      img.id = img.path.checksum.value ∧
      (splitext img.path.filepath).2 ∈ pyImageExts) ∧
    (∀ r ∈ paths, (splitext r.filepath).2 ∈ pyImageExts →
      { id := r.checksum.value, path := r } ∈ locate_images paths) := by
  refine ⟨?_, ?_, ?_⟩
  · have h : (locate_images paths).map image.path = paths.filter locate_images_pred := by
      rw [locate_images, List.map_map]
      exact List.map_id' _
    rw [h]
    exact List.filter_sublist paths
  · intro img hmem
    simp only [locate_images, List.mem_map] at hmem
    obtain ⟨r, hr, rfl⟩ := hmem
    exact ⟨rfl, (locate_images_pred_iff r).mp (List.mem_filter.mp hr).2⟩
  · intro r hr hext
    simp only [locate_images, List.mem_map]
    exact ⟨r, List.mem_filter.mpr ⟨hr, (locate_images_pred_iff r).mpr hext⟩, rfl⟩

/-- A manifest record whose file has the accepted `.png` extension. -/
def recPng : Path :=
  { checksum := { value := "abc", kind := "md5" }, filepath := "r/a.png" }

/-- Witness for C6: a `.png` record is emitted with the checksum value as id. -/
theorem locate_images_characterization_witness :
    ({ id := "abc", path := recPng } : image) ∈ locate_images [recPng] :=
  (locate_images_characterization [recPng]).2.2 recPng (List.mem_cons_self _ _) (by decide)

/-- A record parses iff its line has exactly two whitespace tokens. -/
theorem parseManifestLine_isSome (pfx l : String) :
    (parseManifestLine pfx l).isSome = ((pySplitWs (pyStrip l)).length == 2) := by
  unfold parseManifestLine parseTokens
  rcases pySplitWs (pyStrip l) with _ | ⟨a, _ | ⟨b, _ | ⟨c, t⟩⟩⟩ <;> simp

/-- A successful parse comes from exactly two tokens and fixes the fields. -/
theorem parseTokens_eq_some {pfx : String} {ts : List String} {r : Path}
    (h : parseTokens pfx ts = some r) :
    ∃ c p, ts = [c, p] ∧
      r = { checksum := { value := c, kind := "md5" }, filepath := pyJoin pfx p } := by
  rcases ts with _ | ⟨c, _ | ⟨p, _ | ⟨q, t⟩⟩⟩
  · exact absurd h (by simp [parseTokens])
  · exact absurd h (by simp [parseTokens])
  · exact ⟨c, p, rfl, (Option.some.inj h).symm⟩
  · exact absurd h (by simp [parseTokens])

/-- Claim C7: the manifest reader yields one record per line with exactly
two whitespace-separated tokens — checksum value then path joined to the
dataset root, kind fixed to `md5` — and silently skips every other line:
skipping is total (no error) and produces no record. -/
theorem manifest_reader_two_tokens (lines : List String) (pfx : String) :
    (locate_paths lines pfx).length
      = lines.countP (fun l => (pySplitWs (pyStrip l)).length == 2) ∧
    (∀ r ∈ locate_paths lines pfx,
      r.checksum.kind = "md5" ∧
      ∃ l ∈ lines, ∃ c p, pySplitWs (pyStrip l) = [c, p] ∧
        r = { checksum := { value := c, kind := "md5" }, filepath := pyJoin pfx p }) ∧
    (∀ l : String, (pySplitWs (pyStrip l)).length ≠ 2 → locate_paths [l] pfx = []) := by
  refine ⟨?_, ?_, ?_⟩
  · induction lines with
    | nil => rfl
    | cons l ls ih =>
        simp only [locate_paths, List.filterMap_cons, List.countP_cons] at ih ⊢
        have hs := parseManifestLine_isSome pfx l
        cases h : parseManifestLine pfx l with
        | none =>
            rw [h] at hs
            simp only [Option.isSome_none] at hs
            rw [← hs]
            simpa using ih
        | some r =>
            rw [h] at hs
            simp only [Option.isSome_some] at hs
            rw [← hs]
            simpa using ih
  · intro r hmem
    rw [locate_paths, List.mem_filterMap] at hmem
    obtain ⟨l, hl, hparse⟩ := hmem
    obtain ⟨c, p, hts, rfl⟩ := parseTokens_eq_some hparse
    exact ⟨rfl, l, hl, c, p, hts, rfl⟩
  · intro l hl
    have hs := parseManifestLine_isSome pfx l
    cases h : parseManifestLine pfx l with
    | none => simp [locate_paths, List.filterMap_cons, h]
    | some r =>
        rw [h] at hs
        have h2 : (pySplitWs (pyStrip l)).length = 2 := by simpa using hs.symm
        exact absurd h2 hl

/-- Witness for C7 on a concrete manifest: the two-token line yields its
record (kind `md5`, path joined to the root) and the parse is exhibited. -/
theorem manifest_reader_two_tokens_witness :
    ({ checksum := { value := "abc", kind := "md5" },
       filepath := "root/a.png" } : Path).checksum.kind = "md5" ∧
    ∃ l ∈ ["abc  a.png", "one token only extra"], ∃ c p,
      pySplitWs (pyStrip l) = [c, p] ∧
      ({ checksum := { value := "abc", kind := "md5" },
         filepath := "root/a.png" } : Path)
        = { checksum := { value := c, kind := "md5" }, filepath := pyJoin "root" p } :=
  (manifest_reader_two_tokens ["abc  a.png", "one token only extra"] "root").2.1 _ (by decide)

/-- Claim C10: the extension filter is an exact, case-sensitive comparison
against `".png"`: a record whose extension differs in any way — such as
`.PNG` — is never emitted. -/
theorem extension_filter_case_sensitive (paths : List Path) (r : Path)
    (hext : (splitext r.filepath).2 ≠ ".png") :
    { id := r.checksum.value, path := r } ∉ locate_images paths := by
  intro hmem
  simp only [locate_images, List.mem_map] at hmem
  obtain ⟨r', hr', heq⟩ := hmem
  have hpath : r' = r := congrArg image.path heq
  subst hpath
  have hpred := (locate_images_pred_iff r').mp (List.mem_filter.mp hr').2
  simp only [pyImageExts, List.mem_singleton] at hpred
  exact hext hpred

/-- An uppercase-extension record. -/
def recPNG : Path :=
  { checksum := { value := "abc", kind := "md5" }, filepath := "scan.PNG" }

/-- Witness for C10: the `.PNG` record is excluded even though it is the
only record. -/
theorem extension_filter_case_sensitive_witness :
    ({ id := "abc", path := recPNG } : image) ∉ locate_images [recPNG] :=
  extension_filter_case_sensitive [recPNG] recPNG (by decide)

/-! ### Sampler lemmas (claim C5) -/

/-- Shrinking removes exactly one slot. -/
theorem swapRemove_length {α : Type} [Inhabited α] (pool : List α) (j : Nat) :
    (swapRemove pool j).length = pool.length - 1 := by
  simp only [swapRemove, List.length_take, List.length_set]
  omega

/-- Every element of the shrunken pool was in the pool. -/
theorem mem_of_mem_swapRemove {α : Type} [Inhabited α] {pool : List α} {j : Nat}
    {a : α} (hj : j < pool.length) (ha : a ∈ swapRemove pool j) : a ∈ pool := by
  rcases List.mem_or_eq_of_mem_set (List.mem_of_mem_take ha) with h | rfl
  · exact h
  · rw [List.getD_eq_getElem pool default (by omega)]
    exact List.getElem_mem _

/-- The selected element leaves the active pool: in a duplicate-free pool
the element at the picked slot does not survive the swap-and-shrink. -/
theorem getD_not_mem_swapRemove {α : Type} [Inhabited α] {pool : List α} {j : Nat}
    (hj : j < pool.length) (hnd : pool.Nodup) :
    pool.getD j default ∉ swapRemove pool j := by
  intro hmem
  rw [List.getD_eq_getElem pool default hj] at hmem
  rw [swapRemove, List.mem_iff_getElem] at hmem
  obtain ⟨m, hm, he⟩ := hmem
  have hmlen : m < pool.length - 1 := by
    simpa [List.length_take, List.length_set] using hm
  rw [List.getElem_take, List.getElem_set] at he
  by_cases hjm : j = m
  · subst hjm
    rw [if_pos rfl] at he
    rw [List.getD_eq_getElem pool default (by omega)] at he
    have := hnd.getElem_inj_iff.mp he
    omega
  · rw [if_neg hjm] at he
    have := hnd.getElem_inj_iff.mp he
    omega

/-- Swap-and-shrink preserves freedom from duplicates. -/
theorem nodup_swapRemove {α : Type} [Inhabited α] {pool : List α} {j : Nat}
    (hj : j < pool.length) (hnd : pool.Nodup) : (swapRemove pool j).Nodup := by
  rw [List.nodup_iff_injective_getElem]
  intro i1 i2 heq
  have hl1 : (i1 : Nat) < pool.length - 1 := by
    have := i1.2
    simpa [swapRemove_length] using this
  have hl2 : (i2 : Nat) < pool.length - 1 := by
    have := i2.2
    simpa [swapRemove_length] using this
  simp only [swapRemove, List.getElem_take, List.getElem_set] at heq
  apply Fin.ext
  by_cases h1 : j = (i1 : Nat) <;> by_cases h2 : j = (i2 : Nat)
  · omega
  · rw [if_pos h1, if_neg h2] at heq
    have heq2 := (List.getD_eq_getElem pool default
      (n := pool.length - 1) (by omega)).symm.trans heq
    have := hnd.getElem_inj_iff.mp heq2
    omega
  · rw [if_neg h1, if_pos h2] at heq
    have heq2 := heq.trans (List.getD_eq_getElem pool default
      (n := pool.length - 1) (by omega))
    have := hnd.getElem_inj_iff.mp heq2
    omega
  · rw [if_neg h1, if_neg h2] at heq
    exact hnd.getElem_inj_iff.mp heq

/-- The sample has one element per picked index. -/
theorem samplePool_length {α : Type} [Inhabited α] (rands : List Nat) :
    ∀ pool : List α, (samplePool pool rands).length = rands.length := by
  induction rands with
  | nil => intro pool; rfl
  | cons j rest ih => intro pool; simp [samplePool, ih]

/-- With in-range picks, every sampled element comes from the pool. -/
theorem samplePool_mem {α : Type} [Inhabited α] (rands : List Nat) :
    ∀ pool : List α, validRands pool.length rands = true →
      ∀ a ∈ samplePool pool rands, a ∈ pool := by
  induction rands with
  | nil =>
      intro pool _ a ha
      exact absurd ha (by simp [samplePool])
  | cons j rest ih =>
      intro pool hv a ha
      simp only [validRands, Bool.and_eq_true, decide_eq_true_eq] at hv
      obtain ⟨hj, hrest⟩ := hv
      have hv' : validRands (swapRemove pool j).length rest = true := by
        rw [swapRemove_length]
        exact hrest
      simp only [samplePool] at ha
      rcases List.mem_cons.mp ha with rfl | ha
      · rw [List.getD_eq_getElem pool default hj]
        exact List.getElem_mem _
      · exact mem_of_mem_swapRemove hj (ih _ hv' a ha)

/-- With in-range picks, sampling a duplicate-free pool draws without
replacement: the sample has no duplicate elements. -/
theorem samplePool_nodup {α : Type} [Inhabited α] (rands : List Nat) :
    ∀ pool : List α, validRands pool.length rands = true → pool.Nodup →
      (samplePool pool rands).Nodup := by
  induction rands with
  | nil => intro pool _ _; simp [samplePool]
  | cons j rest ih =>
      intro pool hv hnd
      simp only [validRands, Bool.and_eq_true, decide_eq_true_eq] at hv
      obtain ⟨hj, hrest⟩ := hv
      have hv' : validRands (swapRemove pool j).length rest = true := by
        rw [swapRemove_length]
        exact hrest
      simp only [samplePool]
      rw [List.nodup_cons]
      refine ⟨?_, ih _ hv' (nodup_swapRemove hj hnd)⟩
      intro hmem
      exact getD_not_mem_swapRemove hj hnd (samplePool_mem rest _ hv' _ hmem)

/-- Claim C5 counterexample: the size of the sample is NOT
`floor(p * N)` for every fraction.  The program computes
`int(float(argv) * N)` in IEEE binary64: for the fraction literal
`0.3333333333333333` (the exact rational `3333333333333333 / 10^16`) and
a population of 3, the parsed double is `6004799503160661 * 2^-54`, the
binary64 product lands on an exact rounding tie that ties-to-even rounds
up to `1.0`, and the program samples 1 template where
`floor(p * 3) = 0` — so `random.sample` returns a 1-element sample.
Likewise for `0.29` and a population of 100 the product rounds to
`28.999999999999996` and the program samples 28 where
`floor(0.29 * 100) = 29`. -/
theorem sampler_size_floor_counterexample :
    sampleSizeFloat 3333333333333333 (10 ^ 16) 3 = 1 ∧
    Nat.floor ((3333333333333333 : ℚ) / 10 ^ 16 * 3) = 0 ∧
    pySample [tP, tG, tG1] (sampleSizeFloat 3333333333333333 (10 ^ 16) 3) [0]
      = Except.ok [tP] ∧
    sampleSizeFloat 29 100 100 = 28 ∧
    Nat.floor ((29 : ℚ) / 100 * 100) = 29 := by
  refine ⟨by decide, ?_, ?_, by decide, ?_⟩
  · rw [Nat.floor_eq_zero]
    norm_num
  · have h1 : sampleSizeFloat 3333333333333333 (10 ^ 16) 3 = 1 := by decide
    rw [h1]
    rfl
  · have h2 : (29 : ℚ) / 100 * 100 = 29 := by norm_num
    rw [h2]
    norm_num

/-- Claim C5 amended: the sampler returns exactly the float-computed
count `int(double(p) * N)` of templates — which coincides with
`floor(p * N)` except when binary64 rounding crosses an integer, where it
may differ by one — drawn without replacement (no duplicate elements when
the population has none); the probe and gallery draws are independent and
may overlap, shown on a concrete run of the sampling stage where `tP`
lands in both sets. -/
theorem sampler_float_size_no_duplicates :
    (∀ (pool : List mindtct) (a b : ℕ) (rands : List Nat),
      sampleSizeFloat a b pool.length ≤ pool.length →
      validRands pool.length (rands.take (sampleSizeFloat a b pool.length)) = true →
      sampleSizeFloat a b pool.length ≤ rands.length →
      ∃ s, pySample pool (sampleSizeFloat a b pool.length) rands = Except.ok s ∧
        s.length = sampleSizeFloat a b pool.length ∧
        (pool.Nodup → s.Nodup)) ∧
    (∃ probes gallery : List mindtct,
      pipelineSamples [tP, tG] 1 1 1 1 [0, 0] [1, 0] = Except.ok (probes, gallery) ∧
      tP ∈ probes ∧ tP ∈ gallery) := by
  constructor
  · intro pool a b rands hk hv hr
    refine ⟨samplePool pool (rands.take (sampleSizeFloat a b pool.length)), ?_, ?_, ?_⟩
    · rw [pySample, if_pos hk]
    · rw [samplePool_length, List.length_take, inf_eq_left.mpr hr]
    · intro hnd
      exact samplePool_nodup _ _ hv hnd
  · refine ⟨[tP, tG], [tG, tP], ?_, by decide, by decide⟩
    have hsz : sampleSizeFloat 1 1 ([tP, tG] : List mindtct).length = 2 := by decide
    simp only [pipelineSamples, hsz]
    rfl

/-- Witness for the amended C5: a population of 2 with the fraction
literal `0.5` (here `1 / 2`, exactly representable) draws exactly
`int(0.5 * 2) = 1` template without duplicates. -/
theorem sampler_float_size_no_duplicates_witness :
    ∃ s, pySample [tP, tG] (sampleSizeFloat 1 2 ([tP, tG] : List mindtct).length) [0]
        = Except.ok s ∧
      s.length = sampleSizeFloat 1 2 ([tP, tG] : List mindtct).length ∧
      (([tP, tG] : List mindtct).Nodup → s.Nodup) :=
  sampler_float_size_no_duplicates.1 [tP, tG] 1 2 [0] (by decide) (by decide) (by decide)

end PyLesson1
